import Mathlib

/-!
Verification of `src/server.py` from rheddev/minecraft-website: a single-file
HTTPS static file server.  The Python program is shallowly embedded: pure
parsing logic becomes Lean functions, and the effectful server lifecycle
(`setup_server`, `start`, `signal_handler`, `main`) becomes functions from an
explicit `World` (filesystem / OS outcomes) to an outcome carrying an ordered
event trace and a process exit status.
-/

namespace MinecraftServer

/-- Minimal model of Python's exception values as they matter to this program.
`systemExit` and `keyboardInterrupt` derive from `BaseException` only, so an
`except Exception` clause does not catch them; `valueError` and the generic
`exception` are `Exception` subclasses. -/
inductive PyExc where
  | systemExit (code : Int)
  | keyboardInterrupt
  | valueError (msg : String)
  | exception (msg : String)
  deriving DecidableEq, Repr

/-- Whether an `except Exception:` clause catches this exception. -/
def PyExc.isException : PyExc → Bool
  | .systemExit _ => false
  | .keyboardInterrupt => false
  | .valueError _ => true
  | .exception _ => true

/-- Python's `str(e)` for the exceptions this program raises or formats. -/
def PyExc.str : PyExc → String
  | .systemExit c => toString c
  | .keyboardInterrupt => ""
  | .valueError m => m
  | .exception m => m

/-- Exit status of the CPython interpreter when an exception escapes `main`:
`SystemExit` exits with its code, any other uncaught exception exits 1. -/
def uncaughtExitCode : PyExc → Int
  | .systemExit c => c
  | _ => 1

/-! ## Python `int()` applied to a string (base 10)

`parse_arguments` evaluates `int(os.environ.get('PORT', 443))`.  When `PORT`
is set this applies `int` to a string: leading/trailing whitespace is
stripped, an optional single sign is allowed, and the body must be a nonempty
digit run in which single underscores may appear between digits. -/

/-- Characters `int()` strips from both ends of its string argument. -/
def isPyStrWS (c : Char) : Bool :=
  c = ' ' ∨ c = '\t' ∨ c = '\n' ∨ c = '\x0d' ∨ c = '\x0b' ∨ c = '\x0c'

/-- Decimal digit run with Python's underscore rule: after the first digit,
each later digit may be preceded by one underscore; underscores may not lead,
trail, or repeat. Accumulates the value. -/
def digitsCore (acc : Nat) : List Char → Option Nat
  | [] => some acc
  | c :: rest =>
    if c.isDigit then digitsCore (acc * 10 + (c.toNat - 48)) rest
    else if c = '_' then
      match rest with
      | d :: rest2 =>
        if d.isDigit then digitsCore (acc * 10 + (d.toNat - 48)) rest2 else none
      | [] => none
    else none

/-- Value of a nonempty digit run (with the underscore rule); `none` when the
character list is not such a run. -/
def digitsVal : List Char → Option Nat
  | [] => none
  | c :: rest => if c.isDigit then digitsCore (c.toNat - 48) rest else none

/-- `int(s)` for a string `s`, base 10: strip whitespace, optional sign,
digit run. `none` models `ValueError`. -/
def pyInt (s : String) : Option Int :=
  let cs := ((s.data.dropWhile isPyStrWS).reverse.dropWhile isPyStrWS).reverse
  match cs with
  | '+' :: rest => (digitsVal rest).map Int.ofNat
  | '-' :: rest => (digitsVal rest).map (fun n => -(Int.ofNat n))
  | rest => (digitsVal rest).map Int.ofNat

/-! ## Argument parsing (`parse_arguments`, src/server.py lines 95-116) -/

/-- A value stored in the configuration dict returned by `parse_arguments`. -/
inductive ConfigVal where
  | str (s : String)
  | int (n : Int)
  deriving DecidableEq, Repr

/-- Python dict lookup `d[k]` as an `Option` (the dicts here are small
association lists). -/
def dictGet (d : List (String × ConfigVal)) (k : String) : Option ConfigVal :=
  (d.find? (fun p => p.1 = k)).map (fun p => p.2)

/-- The command line as argparse hands it to the program: each optional flag
is `none` when absent (so the `add_argument` default applies).  `--port` has
`type=int`, so a present port is already an integer. `--debug` is
`store_true`. -/
structure CliArgs where
  host : Option String
  port : Option Int
  cert : Option String
  key : Option String
  debug : Bool
  deriving DecidableEq, Repr

/-- What `parse_arguments` produces on success: the returned dict literal
(lines 111-116) plus whether `logger.setLevel(DEBUG)` was executed
(lines 107-109). -/
structure ParseResult where
  dict : List (String × ConfigVal)
  debugEnabled : Bool
  deriving DecidableEq, Repr

/-- The default of `--port`: `int(os.environ.get('PORT', 443))`, evaluated
eagerly when the argument is declared.  An unparsable `PORT` raises
`ValueError` here, before any command-line value is consulted. -/
def portDefault (env : String → Option String) : Except PyExc Int :=
  match env "PORT" with
  | none => .ok 443
  | some s =>
    match pyInt s with
    | some n => .ok n
    | none => .error (.valueError ("invalid literal for int() with base 10: " ++ s))

/-- `parse_arguments` (src/server.py lines 95-116).  Defaults: host
`'0.0.0.0'`; port from `PORT` else 443; cert from `CERT_FILE` else
`'./minecraft.pem'`; key from `KEY_FILE` else `'./minecraft-key.pem'`.
A present flag overrides its default.  The returned dict holds exactly
`host`, `port`, `cert_file`, `key_file`. -/
def parse_arguments (env : String → Option String) (cli : CliArgs) :
    Except PyExc ParseResult :=
  match portDefault env with
  | .error e => .error e
  | .ok pd =>
    let host := cli.host.getD "0.0.0.0"
    let port := cli.port.getD pd
    let cert := cli.cert.getD ((env "CERT_FILE").getD "./minecraft.pem")
    let key := cli.key.getD ((env "KEY_FILE").getD "./minecraft-key.pem")
    .ok { dict := [("host", .str host), ("port", .int port),
                   ("cert_file", .str cert), ("key_file", .str key)],
          debugEnabled := cli.debug }

/-! ## TLS context model (`ssl` library calls used at lines 48, 56-62, 67) -/

/-- TLS protocol versions, ordered. -/
inductive TLSVersion where
  | sslv3
  | tlsv1
  | tlsv1_1
  | tlsv1_2
  | tlsv1_3
  deriving DecidableEq, Repr

/-- Numeric rank used to compare protocol versions. -/
def TLSVersion.rank : TLSVersion → Nat
  | .sslv3 => 0
  | .tlsv1 => 1
  | .tlsv1_1 => 2
  | .tlsv1_2 => 3
  | .tlsv1_3 => 4

/-- The `ssl.SSLContext` state this program manipulates: whether it came from
`ssl.create_default_context` (secure cipher/option defaults), its
`minimum_version`, and the cert/key pair loaded by `load_cert_chain`. -/
structure SSLContext where
  secureDefaults : Bool
  minimumVersion : TLSVersion
  loadedCertChain : Option (String × String)
  deriving DecidableEq, Repr

/-- A context permits a handshake at version `v` iff `v` is at least its
`minimum_version`. -/
def SSLContext.permits (ctx : SSLContext) (v : TLSVersion) : Bool :=
  ctx.minimumVersion.rank ≤ v.rank

/-- `ssl.create_default_context(ssl.Purpose.CLIENT_AUTH)`: secure defaults,
library-chosen minimum version (kept abstract as a parameter), no certificate
loaded yet. -/
def create_default_context (libraryMinVersion : TLSVersion) : SSLContext :=
  { secureDefaults := true, minimumVersion := libraryMinVersion,
    loadedCertChain := none }

/-! ## Server lifecycle (`MinecraftHTTPSServer`, src/server.py lines 24-92) -/

/-- Configuration as read by the server from the parsed dict:
`config['host']`, `config['port']`, `config['cert_file']`,
`config['key_file']`. -/
structure Config where
  host : String
  port : Int
  cert_file : String
  key_file : String
  deriving DecidableEq, Repr

/-- The dict literal returned at src/server.py lines 111-116, as a function of
the four values it holds. -/
def configDict (c : Config) : List (String × ConfigVal) :=
  [("host", .str c.host), ("port", .int c.port),
   ("cert_file", .str c.cert_file), ("key_file", .str c.key_file)]

/-- Observable events of a run, in program order: log lines and the
OS/socket actions the program performs. -/
inductive Ev where
  | info (msg : String)
  | error (msg : String)
  | chdir (dir : String)
  | bind (host : String) (port : Int)
  | createContext
  | loadCert (cert key : String)
  | setMinVersion (v : TLSVersion)
  | wrapSocket
  | serve
  | serverClose
  deriving DecidableEq, Repr

/-- The parts of the outside world `setup_server` touches, with the outcome
each fallible OS/library call would have.  `fileExists` is the filesystem seen
by `os.path.exists`; the `*Ok` flags say whether `os.chdir`, the
`HTTPServer` constructor (socket bind), `load_cert_chain` (on existing files)
and `wrap_socket` succeed, and the `*Err` strings are `str(e)` of the
exception raised on failure. -/
structure World where
  scriptDir : String
  fileExists : String → Bool
  chdirOk : Bool
  chdirErr : String
  bindOk : Bool
  bindErr : String
  loadCertOk : Bool
  loadCertErr : String
  wrapOk : Bool
  wrapErr : String
  libraryMinVersion : TLSVersion

/-- Server object state after `setup_server` returns normally. -/
structure ServerState where
  cwd : String
  boundAddr : Option (String × Int)
  context : Option SSLContext
  socketWrapped : Bool
  deriving DecidableEq, Repr

/-- Outcome of a call that may terminate the process (`sys.exit`), return
normally, or let an exception escape to the caller. -/
inductive SetupOutcome where
  | exit (status : Int) (events : List Ev)
  | ok (st : ServerState) (events : List Ev)
  | raised (e : PyExc) (events : List Ev)
  deriving DecidableEq, Repr

/-- The `except Exception` handler at src/server.py lines 69-71:
`logger.error(f"Failed to set up server: {e}"); sys.exit(1)`. -/
def setupFail (evs : List Ev) (msg : String) : SetupOutcome :=
  .exit 1 (evs ++ [.error ("Failed to set up server: " ++ msg)])

/-- `MinecraftHTTPSServer.setup_server` (src/server.py lines 32-71), in
program order: `os.chdir` to the script's directory and log it; construct
`HTTPServer((host, port), SimpleHTTPRequestHandler)` (creates and binds the
listening socket); `ssl.create_default_context`; check `os.path.exists` for
the cert then the key file, raising `FileNotFoundError` naming the missing
path; `load_cert_chain`; set `minimum_version = TLSv1_2`; `wrap_socket`.
Every `Exception` raised inside the `try` is caught, logged as
`Failed to set up server: {e}`, and the process exits 1. -/
def setup_server (w : World) (cfg : Config) : SetupOutcome :=
  if ¬ w.chdirOk then setupFail [] w.chdirErr
  else
    let evs1 := [Ev.chdir w.scriptDir,
                 Ev.info ("Serving files from: " ++ w.scriptDir)]
    if ¬ w.bindOk then setupFail evs1 w.bindErr
    else
      let evs2 := evs1 ++ [Ev.bind cfg.host cfg.port, Ev.createContext]
      let ctx := create_default_context w.libraryMinVersion
      if ¬ w.fileExists cfg.cert_file then
        setupFail evs2 ("Certificate file not found: " ++ cfg.cert_file)
      else if ¬ w.fileExists cfg.key_file then
        setupFail evs2 ("Key file not found: " ++ cfg.key_file)
      else if ¬ w.loadCertOk then setupFail evs2 w.loadCertErr
      else
        let ctx := { ctx with loadedCertChain := some (cfg.cert_file, cfg.key_file) }
        let evs3 := evs2 ++ [Ev.loadCert cfg.cert_file cfg.key_file]
        let ctx := { ctx with minimumVersion := .tlsv1_2 }
        let evs4 := evs3 ++ [Ev.setMinVersion .tlsv1_2]
        if ¬ w.wrapOk then setupFail evs4 w.wrapErr
        else
          .ok { cwd := w.scriptDir,
                boundAddr := some (cfg.host, cfg.port),
                context := some ctx,
                socketWrapped := true }
            (evs4 ++ [Ev.wrapSocket])

/-- `SimpleHTTPRequestHandler` resolves request paths against the process
working directory, so the served root of a set-up server is its `cwd`. -/
def servedRoot (st : ServerState) : String :=
  st.cwd

/-- `signal_handler` (src/server.py lines 119-122): log the signal and call
`sys.exit(0)`, i.e. raise `SystemExit(0)` inside whatever frame is running. -/
def signal_handler (sig : Int) : List Ev × PyExc :=
  ([.info ("Received signal " ++ toString sig ++ ", shutting down...")],
   .systemExit 0)

/-- How the blocking `serve_forever` call ends: by an exception raised inside
it (a signal handler's `SystemExit`, a `KeyboardInterrupt`, or a server
error), together with events logged while serving. -/
structure ServeEnd where
  events : List Ev
  exc : PyExc

/-- `MinecraftHTTPSServer.start` (src/server.py lines 73-86).  `serve_forever`
ends with `se.exc`; `except KeyboardInterrupt` logs and swallows it,
`except Exception` logs and calls `sys.exit(1)`, `SystemExit` (not an
`Exception`) propagates; the `finally` block runs `server_close` and logs
`Server closed` whenever `self.httpd` is truthy.  The result is the process
exit status (start is the last statement of `main`, so a normal return exits
0) and the full ordered event trace. -/
def start (cfg : Config) (st : ServerState) (se : ServeEnd) : Int × List Ev :=
  let pre := [Ev.info ("Starting HTTPS server on " ++ cfg.host ++ ":" ++
                toString cfg.port ++ "..."), Ev.serve] ++ se.events
  let fin := if st.boundAddr.isSome then [Ev.serverClose, Ev.info "Server closed"]
             else []
  match se.exc with
  | .keyboardInterrupt =>
    (0, pre ++ [Ev.info "Server stopped by user interrupt"] ++ fin)
  | .systemExit c => (c, pre ++ fin)
  | e => (1, pre ++ [Ev.error ("Server error: " ++ e.str)] ++ fin)

/-- A run in which signal `sig` (SIGINT or SIGTERM, the two handlers `main`
registers) is delivered while `serve_forever` blocks: the handler logs and
raises `SystemExit(0)`, which unwinds through `start`. -/
def runWithSignal (cfg : Config) (st : ServerState) (sig : Int) : Int × List Ev :=
  let h := signal_handler sig
  start cfg st { events := h.1, exc := h.2 }

/-- `main` (src/server.py lines 125-137) up to the moment serving begins:
parse arguments (an uncaught exception there ends the interpreter with its
exit code and no server activity), build the server, run `setup_server`.
Serving itself is modelled by `start` applied to the resulting state. -/
def mainSetup (env : String → Option String) (cli : CliArgs) (w : World) :
    SetupOutcome :=
  match parse_arguments env cli with
  | .error e => .exit (uncaughtExitCode e) []
  | .ok pr =>
    match dictGet pr.dict "host", dictGet pr.dict "port",
        dictGet pr.dict "cert_file", dictGet pr.dict "key_file" with
    | some (.str h), some (.int p), some (.str c), some (.str k) =>
      setup_server w { host := h, port := p, cert_file := c, key_file := k }
    | _, _, _, _ => .raised (.exception "KeyError") []

/-! ## Concrete fixtures for witnesses and counterexamples -/

/-- Environment with no variables set. -/
def envEmpty : String → Option String := fun _ => none

/-- Command line with no flags given. -/
def cliEmpty : CliArgs :=
  { host := none, port := none, cert := none, key := none, debug := false }

/-- The all-default configuration. -/
def cfg0 : Config :=
  { host := "0.0.0.0", port := 443, cert_file := "./minecraft.pem",
    key_file := "./minecraft-key.pem" }

/-- A world in which every OS and library call succeeds and both certificate
files exist. -/
def wAllOk : World where
  scriptDir := "/srv/minecraft"
  fileExists := fun _ => true
  chdirOk := true
  chdirErr := ""
  bindOk := true
  bindErr := ""
  loadCertOk := true
  loadCertErr := ""
  wrapOk := true
  wrapErr := ""
  libraryMinVersion := .tlsv1_2

/-- Like `wAllOk` but no file exists (in particular the certificate file is
missing). -/
def wCertMissing : World :=
  { wAllOk with fileExists := fun _ => false }

/-- Like `wAllOk` but only the certificate file exists (the key file is
missing). -/
def wKeyMissing : World :=
  { wAllOk with fileExists := fun p => p = "./minecraft.pem" }

/-- A server state as produced by a successful `setup_server` in `wAllOk`. -/
def stOk : ServerState where
  cwd := "/srv/minecraft"
  boundAddr := some ("0.0.0.0", 443)
  context := some { secureDefaults := true, minimumVersion := .tlsv1_2,
                    loadedCertChain := some ("./minecraft.pem", "./minecraft-key.pem") }
  socketWrapped := true

/-- The event trace of a fully successful `setup_server` run in `wAllOk`
with the default configuration. -/
def evsOk : List Ev :=
  [Ev.chdir "/srv/minecraft", Ev.info "Serving files from: /srv/minecraft",
   Ev.bind "0.0.0.0" 443, Ev.createContext,
   Ev.loadCert "./minecraft.pem" "./minecraft-key.pem",
   Ev.setMinVersion .tlsv1_2, Ev.wrapSocket]

/-! ## Helper lemmas -/

/-- String concatenation is associative (needed to normalise log messages
built by appending a path to a literal prefix). -/
theorem string_append_assoc (a b c : String) : a ++ b ++ c = a ++ (b ++ c) := by
  cases a; cases b; cases c
  exact congrArg String.mk (List.append_assoc _ _ _)

/-- `setupFail` always exits with status 1, carrying an error log line, and
never lets an exception escape. -/
theorem setupFail_spec (evs0 : List Ev) (msg : String) :
    (∀ e evs, setupFail evs0 msg ≠ .raised e evs) ∧
    (∃ evs m, setupFail evs0 msg = .exit 1 evs ∧ Ev.error m ∈ evs) := by
  refine ⟨fun e evs h => by simp [setupFail] at h, ?_⟩
  exact ⟨evs0 ++ [Ev.error ("Failed to set up server: " ++ msg)],
    "Failed to set up server: " ++ msg, rfl, by simp⟩

/-! ## Claims -/

/-- C1: with the working-directory change and the socket bind succeeding, a
configuration whose certificate file does not exist makes `setup_server`
terminate the process with exit status 1 after logging an error naming the
certificate path, and likewise a configuration whose key file does not exist
(the certificate check running first) exits 1 logging an error naming the key
path. -/
theorem missing_cert_or_key_exits_one_naming_path (w : World) (cfg : Config)
    (hc : w.chdirOk = true) (hb : w.bindOk = true) :
    (w.fileExists cfg.cert_file = false →
      ∃ evs, setup_server w cfg = .exit 1 evs ∧
        Ev.error ("Failed to set up server: " ++
          ("Certificate file not found: " ++ cfg.cert_file)) ∈ evs) ∧
    (w.fileExists cfg.cert_file = true → w.fileExists cfg.key_file = false →
      ∃ evs, setup_server w cfg = .exit 1 evs ∧
        Ev.error ("Failed to set up server: " ++
          ("Key file not found: " ++ cfg.key_file)) ∈ evs) := by
  constructor
  · intro hcert
    refine ⟨[Ev.chdir w.scriptDir,
             Ev.info ("Serving files from: " ++ w.scriptDir),
             Ev.bind cfg.host cfg.port, Ev.createContext,
             Ev.error ("Failed to set up server: " ++
               ("Certificate file not found: " ++ cfg.cert_file))], ?_, ?_⟩
    · simp [setup_server, setupFail, hc, hb, hcert, string_append_assoc]
    · simp
  · intro hcert hkey
    refine ⟨[Ev.chdir w.scriptDir,
             Ev.info ("Serving files from: " ++ w.scriptDir),
             Ev.bind cfg.host cfg.port, Ev.createContext,
             Ev.error ("Failed to set up server: " ++
               ("Key file not found: " ++ cfg.key_file))], ?_, ?_⟩
    · simp [setup_server, setupFail, hc, hb, hcert, hkey, string_append_assoc]
    · simp

/-- Witness for C1: concrete runs with the default configuration, once with
the certificate file missing and once with only the key file missing. -/
theorem missing_cert_or_key_exits_one_naming_path_witness :
    (∃ evs, setup_server wCertMissing cfg0 = .exit 1 evs ∧
      Ev.error ("Failed to set up server: " ++
        ("Certificate file not found: " ++ cfg0.cert_file)) ∈ evs) ∧
    (∃ evs, setup_server wKeyMissing cfg0 = .exit 1 evs ∧
      Ev.error ("Failed to set up server: " ++
        ("Key file not found: " ++ cfg0.key_file)) ∈ evs) :=
  ⟨(missing_cert_or_key_exits_one_naming_path wCertMissing cfg0 rfl rfl).1
      (by decide),
   (missing_cert_or_key_exits_one_naming_path wKeyMissing cfg0 rfl rfl).2
      (by decide) (by decide)⟩

/-- C2 counterexample: with the default configuration and a world where both
certificate files are missing, `setup_server` does exit with status 1, but
the trace of the run contains the socket bind event — the listening socket
was created and bound before the existence check, contradicting the claim
that the process exits without ever having bound the socket. -/
theorem bind_precedes_validation_counterexample :
    setup_server wCertMissing cfg0 =
      .exit 1 [Ev.chdir "/srv/minecraft",
               Ev.info "Serving files from: /srv/minecraft",
               Ev.bind "0.0.0.0" 443, Ev.createContext,
               Ev.error "Failed to set up server: Certificate file not found: ./minecraft.pem"] ∧
    Ev.bind "0.0.0.0" 443 ∈
      [Ev.chdir "/srv/minecraft",
       Ev.info "Serving files from: /srv/minecraft",
       Ev.bind "0.0.0.0" 443, Ev.createContext,
       Ev.error "Failed to set up server: Certificate file not found: ./minecraft.pem"] := by
  exact ⟨rfl, by simp⟩

/-- C2 amended: certificate and key existence are validated only after the
listening socket is created and bound. For every configuration with a missing
certificate or key file (the directory change and the bind succeeding), the
process exits with status 1, and the trace shows the bind event strictly
before the error: the socket had been created and bound. -/
theorem missing_file_exit_after_bind (w : World) (cfg : Config)
    (hc : w.chdirOk = true) (hb : w.bindOk = true)
    (h : w.fileExists cfg.cert_file = false ∨ w.fileExists cfg.key_file = false) :
    ∃ msg, setup_server w cfg =
      .exit 1 [Ev.chdir w.scriptDir,
               Ev.info ("Serving files from: " ++ w.scriptDir),
               Ev.bind cfg.host cfg.port, Ev.createContext,
               Ev.error ("Failed to set up server: " ++ msg)] := by
  by_cases hcert : w.fileExists cfg.cert_file = true
  · have hkey : w.fileExists cfg.key_file = false := by
      rcases h with h | h
      · rw [hcert] at h; exact absurd h (by simp)
      · exact h
    exact ⟨"Key file not found: " ++ cfg.key_file,
      by simp [setup_server, setupFail, hc, hb, hcert, hkey, string_append_assoc]⟩
  · have hcert' : w.fileExists cfg.cert_file = false := by
      simpa using hcert
    exact ⟨"Certificate file not found: " ++ cfg.cert_file,
      by simp [setup_server, setupFail, hc, hb, hcert', string_append_assoc]⟩

/-- Witness for the amended C2: the concrete missing-certificate run. -/
theorem missing_file_exit_after_bind_witness :
    ∃ msg, setup_server wCertMissing cfg0 =
      .exit 1 [Ev.chdir wCertMissing.scriptDir,
               Ev.info ("Serving files from: " ++ wCertMissing.scriptDir),
               Ev.bind cfg0.host cfg0.port, Ev.createContext,
               Ev.error ("Failed to set up server: " ++ msg)] :=
  missing_file_exit_after_bind wCertMissing cfg0 rfl rfl (Or.inl (by decide))

/-- C3: delivery of SIGINT (2) or SIGTERM (15) while `serve_forever` blocks
makes the handler raise `SystemExit(0)`; the `finally` block of `start` runs
`server_close` (and logs `Server closed`) before the process terminates, and
the exit status is 0. -/
theorem signal_exits_zero_after_close (cfg : Config) (st : ServerState)
    (sig : Int) (_hsig : sig = 2 ∨ sig = 15)
    (hst : st.boundAddr.isSome = true) :
    runWithSignal cfg st sig =
      (0, [Ev.info ("Starting HTTPS server on " ++ cfg.host ++ ":" ++
             toString cfg.port ++ "..."), Ev.serve,
           Ev.info ("Received signal " ++ toString sig ++ ", shutting down..."),
           Ev.serverClose, Ev.info "Server closed"]) ∧
    Ev.serverClose ∈ (runWithSignal cfg st sig).2 := by
  have h : runWithSignal cfg st sig =
      (0, [Ev.info ("Starting HTTPS server on " ++ cfg.host ++ ":" ++
             toString cfg.port ++ "..."), Ev.serve,
           Ev.info ("Received signal " ++ toString sig ++ ", shutting down..."),
           Ev.serverClose, Ev.info "Server closed"]) := by
    simp [runWithSignal, start, signal_handler, hst]
  exact ⟨h, by rw [h]; simp⟩

/-- Witness for C3: SIGINT delivered to the set-up default server. -/
theorem signal_exits_zero_after_close_witness :
    runWithSignal cfg0 stOk 2 =
      (0, [Ev.info ("Starting HTTPS server on " ++ cfg0.host ++ ":" ++
             toString cfg0.port ++ "..."), Ev.serve,
           Ev.info ("Received signal " ++ toString (2 : Int) ++
             ", shutting down..."),
           Ev.serverClose, Ev.info "Server closed"]) ∧
    Ev.serverClose ∈ (runWithSignal cfg0 stOk 2).2 :=
  signal_exits_zero_after_close cfg0 stOk 2 (Or.inl rfl) rfl

/-- C4: whenever `setup_server` returns normally, the server's TLS context
was built by `ssl.create_default_context` (secure defaults) and has
`minimum_version = TLSv1_2`, so it permits no protocol version below
TLS 1.2 — for any library default minimum version. -/
theorem context_secure_defaults_min_tls12 (w : World) (cfg : Config)
    (st : ServerState) (evs : List Ev)
    (h : setup_server w cfg = .ok st evs) :
    ∃ ctx, st.context = some ctx ∧ ctx.secureDefaults = true ∧
      ctx.minimumVersion = .tlsv1_2 ∧
      ∀ v : TLSVersion, v.rank < TLSVersion.rank .tlsv1_2 →
        ctx.permits v = false := by
  unfold setup_server at h
  split at h
  · simp [setupFail] at h
  · split at h
    · simp [setupFail] at h
    · split at h
      · simp [setupFail] at h
      · split at h
        · simp [setupFail] at h
        · split at h
          · simp [setupFail] at h
          · split at h
            · simp [setupFail] at h
            · rw [SetupOutcome.ok.injEq] at h
              obtain ⟨h1, h2⟩ := h
              subst h1
              refine ⟨_, rfl, rfl, rfl, ?_⟩
              intro v hv
              cases v
              · rfl
              · rfl
              · rfl
              · exact absurd hv (by decide)
              · exact absurd hv (by decide)

/-- Witness for C4: the all-OK world with the default configuration. -/
theorem context_secure_defaults_min_tls12_witness :
    ∃ ctx, stOk.context = some ctx ∧ ctx.secureDefaults = true ∧
      ctx.minimumVersion = .tlsv1_2 ∧
      ∀ v : TLSVersion, v.rank < TLSVersion.rank .tlsv1_2 →
        ctx.permits v = false :=
  context_secure_defaults_min_tls12 wAllOk cfg0 stOk evsOk rfl

/-- C5: for every world and configuration, `setup_server` either terminates
the process with exit status 1 after logging an error, or returns normally
with the listening socket bound to `(host, port)` and wrapped in TLS; it
never lets an exception escape to its caller. -/
theorem setup_exits_one_or_ready (w : World) (cfg : Config) :
    (∀ e evs, setup_server w cfg ≠ .raised e evs) ∧
    ((∃ evs msg, setup_server w cfg = .exit 1 evs ∧ Ev.error msg ∈ evs) ∨
     (∃ st evs, setup_server w cfg = .ok st evs ∧
        st.boundAddr = some (cfg.host, cfg.port) ∧
        st.socketWrapped = true)) := by
  unfold setup_server
  split
  · exact ⟨(setupFail_spec _ _).1, Or.inl (setupFail_spec _ _).2⟩
  · split
    · exact ⟨(setupFail_spec _ _).1, Or.inl (setupFail_spec _ _).2⟩
    · split
      · exact ⟨(setupFail_spec _ _).1, Or.inl (setupFail_spec _ _).2⟩
      · split
        · exact ⟨(setupFail_spec _ _).1, Or.inl (setupFail_spec _ _).2⟩
        · split
          · exact ⟨(setupFail_spec _ _).1, Or.inl (setupFail_spec _ _).2⟩
          · split
            · exact ⟨(setupFail_spec _ _).1, Or.inl (setupFail_spec _ _).2⟩
            · exact ⟨fun e evs h => by simp at h,
                Or.inr ⟨_, _, rfl, rfl, rfl⟩⟩

/-- C7: whenever `setup_server` returns normally, the working directory has
been changed to the directory containing the program file (the first action
of the run is that `os.chdir`), so the served root — the directory
`SimpleHTTPRequestHandler` resolves request paths against — is the program's
own directory. -/
theorem chdir_to_script_dir_before_serving (w : World) (cfg : Config)
    (st : ServerState) (evs : List Ev)
    (h : setup_server w cfg = .ok st evs) :
    servedRoot st = w.scriptDir ∧
    evs.head? = some (Ev.chdir w.scriptDir) := by
  unfold setup_server at h
  split at h
  · simp [setupFail] at h
  · split at h
    · simp [setupFail] at h
    · split at h
      · simp [setupFail] at h
      · split at h
        · simp [setupFail] at h
        · split at h
          · simp [setupFail] at h
          · split at h
            · simp [setupFail] at h
            · rw [SetupOutcome.ok.injEq] at h
              obtain ⟨h1, h2⟩ := h
              subst h1
              exact ⟨rfl, by rw [← h2]; rfl⟩

/-- Witness for C7: the successful default run. -/
theorem chdir_to_script_dir_before_serving_witness :
    servedRoot stOk = wAllOk.scriptDir ∧
    evsOk.head? = some (Ev.chdir wAllOk.scriptDir) :=
  chdir_to_script_dir_before_serving wAllOk cfg0 stOk evsOk rfl

/-- Environment with `PORT=8080` and nothing else. -/
def envPort8080 : String → Option String :=
  fun k => if k = "PORT" then some "8080" else none

/-- Environment with `PORT=4a3` (not an integer literal). -/
def envBadPort : String → Option String :=
  fun k => if k = "PORT" then some "4a3" else none

/-- Command line supplying only `--cert /etc/ssl/mc.pem --debug`. -/
def cliCertDebug : CliArgs :=
  { cliEmpty with cert := some "/etc/ssl/mc.pem", debug := true }

/-- Command line supplying only `--port 70000`. -/
def cliPort70000 : CliArgs :=
  { cliEmpty with port := some 70000 }

/-- Command line supplying only `--port 8080`. -/
def cliPort8080 : CliArgs :=
  { cliEmpty with port := some 8080 }

/-- Command line supplying only `--debug`. -/
def cliDebug : CliArgs :=
  { cliEmpty with debug := true }

/-- The dict `parse_arguments` returns when every default applies. -/
def defaultDict : List (String × ConfigVal) :=
  [("host", .str "0.0.0.0"), ("port", .int 443),
   ("cert_file", .str "./minecraft.pem"),
   ("key_file", .str "./minecraft-key.pem")]

/-- C6: argument parsing resolves defaults exactly as specified: the port
default is the integer value of `PORT` when set (else 443), the certificate
default comes from `CERT_FILE` (else `./minecraft.pem`), the key default from
`KEY_FILE` (else `./minecraft-key.pem`), the host default is `0.0.0.0`, and a
supplied flag (`Option.getD` on a `some`) always overrides the default. -/
theorem parse_defaults_and_overrides (env : String → Option String)
    (cli : CliArgs) (pd : Int) (hpd : portDefault env = .ok pd) :
    parse_arguments env cli = .ok
      { dict := [("host", .str (cli.host.getD "0.0.0.0")),
                 ("port", .int (cli.port.getD pd)),
                 ("cert_file",
                  .str (cli.cert.getD ((env "CERT_FILE").getD "./minecraft.pem"))),
                 ("key_file",
                  .str (cli.key.getD ((env "KEY_FILE").getD "./minecraft-key.pem")))],
        debugEnabled := cli.debug } ∧
    (env "PORT" = none → pd = 443) ∧
    (∀ s n, env "PORT" = some s → pyInt s = some n → pd = n) := by
  refine ⟨?_, ?_, ?_⟩
  · simp [parse_arguments, hpd]
  · intro h
    simp [portDefault, h] at hpd
    omega
  · intro s n hs hn
    simp [portDefault, hs, hn] at hpd
    omega

/-- Witness for C6: `PORT=8080` in the environment, `--cert` and `--debug`
on the command line; the port default comes from the environment, the cert
flag overrides its default, everything else is the literal default. -/
theorem parse_defaults_and_overrides_witness :
    parse_arguments envPort8080 cliCertDebug = .ok
      { dict := [("host", .str "0.0.0.0"), ("port", .int 8080),
                 ("cert_file", .str "/etc/ssl/mc.pem"),
                 ("key_file", .str "./minecraft-key.pem")],
        debugEnabled := true } :=
  (parse_defaults_and_overrides envPort8080 cliCertDebug 8080 rfl).1

/-- C8 counterexample: `--port 70000` parses successfully and the resulting
configuration's port field is 70000, which is not in the range 1-65535;
argument parsing enforces no port range check. -/
theorem port_range_counterexample :
    parse_arguments envEmpty cliPort70000 = .ok
      { dict := [("host", .str "0.0.0.0"), ("port", .int 70000),
                 ("cert_file", .str "./minecraft.pem"),
                 ("key_file", .str "./minecraft-key.pem")],
        debugEnabled := false } ∧
    ¬ ((1 : Int) ≤ 70000 ∧ (70000 : Int) ≤ 65535) :=
  ⟨rfl, by decide⟩

/-- C8 amended: for every configuration produced by argument parsing, the
port field is an integer (the argparse `type=int` value or the integer
default), with no range restriction imposed. -/
theorem port_field_is_integer (env : String → Option String) (cli : CliArgs)
    (r : ParseResult) (h : parse_arguments env cli = .ok r) :
    ∃ n : Int, dictGet r.dict "port" = some (.int n) := by
  unfold parse_arguments at h
  cases hpd : portDefault env with
  | error e => rw [hpd] at h; exact absurd h (by simp)
  | ok pd =>
    rw [hpd] at h
    rw [Except.ok.injEq] at h
    subst h
    exact ⟨cli.port.getD pd, rfl⟩

/-- Witness for the amended C8: the all-default parse produces port 443. -/
theorem port_field_is_integer_witness :
    ∃ n : Int,
      dictGet (ParseResult.mk defaultDict false).dict "port" = some (.int n) :=
  port_field_is_integer envEmpty cliEmpty (ParseResult.mk defaultDict false) rfl

/-- C9 counterexample: running with `--debug` yields a configuration dict
with no `debug` key — the configuration returned by `parse_arguments`
contains only `host`, `port`, `cert_file` and `key_file`. -/
theorem debug_not_in_config_counterexample :
    parse_arguments envEmpty cliDebug =
      .ok { dict := defaultDict, debugEnabled := true } ∧
    dictGet defaultDict "debug" = none :=
  ⟨rfl, rfl⟩

/-- C9 amended: the configuration dict returned by argument parsing holds
exactly the keys `host`, `port`, `cert_file`, `key_file`; `debug` is not one
of them — the `--debug` flag only switches the logger to debug verbosity
inside `parse_arguments`. -/
theorem config_without_debug_field (env : String → Option String)
    (cli : CliArgs) (r : ParseResult) (h : parse_arguments env cli = .ok r) :
    r.dict.map Prod.fst = ["host", "port", "cert_file", "key_file"] ∧
    dictGet r.dict "debug" = none ∧
    r.debugEnabled = cli.debug := by
  unfold parse_arguments at h
  cases hpd : portDefault env with
  | error e => rw [hpd] at h; exact absurd h (by simp)
  | ok pd =>
    rw [hpd] at h
    rw [Except.ok.injEq] at h
    subst h
    exact ⟨rfl, rfl, rfl⟩

/-- Witness for the amended C9: the `--debug` run. -/
theorem config_without_debug_field_witness :
    (ParseResult.mk defaultDict true).dict.map Prod.fst =
      ["host", "port", "cert_file", "key_file"] ∧
    dictGet (ParseResult.mk defaultDict true).dict "debug" = none ∧
    (ParseResult.mk defaultDict true).debugEnabled = cliDebug.debug :=
  config_without_debug_field envEmpty cliDebug (ParseResult.mk defaultDict true) rfl

/-- C10: when `PORT` is set to a string that is not a valid integer literal,
`parse_arguments` fails with a `ValueError` for every command line — the
eager default `int(os.environ.get('PORT', 443))` is computed even when
`--port` is supplied — and the process dies with exit status 1 before any
server activity (empty trace: no server object, no chdir, no bind). -/
theorem bad_port_env_uncaught_valueerror (env : String → Option String)
    (cli : CliArgs) (w : World) (s : String)
    (hs : env "PORT" = some s) (hbad : pyInt s = none) :
    parse_arguments env cli =
      .error (.valueError ("invalid literal for int() with base 10: " ++ s)) ∧
    mainSetup env cli w = .exit 1 [] := by
  have hp : portDefault env =
      .error (.valueError ("invalid literal for int() with base 10: " ++ s)) := by
    simp [portDefault, hs, hbad]
  constructor
  · simp [parse_arguments, hp]
  · simp [mainSetup, parse_arguments, hp, uncaughtExitCode]

/-- Witness for C10: `PORT=4a3` with an explicit `--port 8080` still dies
with the `ValueError` before any server activity. -/
theorem bad_port_env_uncaught_valueerror_witness :
    parse_arguments envBadPort cliPort8080 =
      .error (.valueError ("invalid literal for int() with base 10: " ++ "4a3")) ∧
    mainSetup envBadPort cliPort8080 wAllOk = .exit 1 [] :=
  bad_port_env_uncaught_valueerror envBadPort cliPort8080 wAllOk "4a3" rfl rfl

end MinecraftServer
